import Mathlib

/-
Verification of fence/resources/google/utils.py: per-user Google service
accounts and their credential keys.

The module is embedded shallowly:
  * the relational store (tables GoogleServiceAccount, GoogleServiceAccountKey)
    is an explicit `DB` value; `session.add` immediately followed by
    `session.commit` (the only pattern in this module) is modelled as appending
    the committed row to the table;
  * the external cloud provider (cirrus.GoogleCloudManager) and the helper
    get_valid_service_account_id_for_client are excluded collaborators and are
    modelled as oracle functions in an `Env`; every outbound provider call is
    recorded in a trace so that "no external call was made" is provable;
  * `flask.abort(404, ...)` and `InternalError` become the two constructors of
    `Err`; a failing call returns `.error (e, st)` carrying the state at raise
    time, so "persists nothing" is the statement that this state is unchanged;
  * Python truthiness of optional-string and optional-int arguments
    (`if client_id:`, `expires or default`) is modelled by `truthyStr` and
    `truthyNat`, under which both `None` and the empty/zero value are falsy.
-/

namespace FenceGoogleUtils

/-- The JSON Google credentials structure returned by the provider when a key
is minted.  Only the `private_key_id` field is inspected by the code
(`sa_private_key.get("private_key_id")`); the rest of the payload is abstracted
into `material`. -/
structure GoogleCredentials where
  private_key_id : Option String
  material : String
deriving DecidableEq, Repr, Inhabited

/-- Modelled from the spec: the `GoogleServiceAccount` model class lives in
fence/models.py, which is not part of the sources; its columns are taken from
spec section 3 ("unique cloud identifier, owning user identifier, optional
client identifier, contact email") and from the constructor call in
_create_google_service_account_for_client.  `id` is the database-assigned
primary key. -/
structure GoogleServiceAccount where
  id : Nat
  google_unique_id : String
  client_id : Option String
  user_id : Nat
  email : String
deriving DecidableEq, Repr

/-- Modelled from the spec: the `GoogleServiceAccountKey` model class lives in
fence/models.py, which is not part of the sources; its columns are taken from
spec section 3 ("key identifier, owning service-account reference, expiration
timestamp, optional embedded private-key material") and from the constructor
calls in utils.py.  A column omitted at construction time is NULL, hence
`private_key : Option _` and `none` when the constructor omits it. -/
structure GoogleServiceAccountKey where
  key_id : Option String
  service_account_id : Nat
  expires : Nat
  private_key : Option GoogleCredentials
deriving DecidableEq, Repr

/-- The committed database state: the two relations touched by the module,
plus the next fresh primary key for service-account rows. -/
structure DB where
  service_accounts : List GoogleServiceAccount
  service_account_keys : List GoogleServiceAccountKey
  next_id : Nat
deriving DecidableEq, Repr

/-- A record of one outbound call to the external cloud provider. -/
inductive ProviderCall where
  | createServiceAccount (proxy_group_id : String) (account_id : String)
  | getAccessKey (google_unique_id : String)
deriving DecidableEq, Repr

/-- Program state threaded through the operations: the database plus the trace
of provider calls made so far. -/
structure St where
  db : DB
  calls : List ProviderCall
deriving DecidableEq, Repr

/-- The provider response to create_service_account_for_proxy_group: the code
reads the fields uniqueId and email of the returned structure. -/
structure ProviderAccount where
  uniqueId : String
  email : String
deriving DecidableEq, Repr

/-- The ambient environment: current time, the configured default expiration
(config key GOOGLE_SERVICE_ACCOUNT_KEY_FOR_URL_SIGNING_EXPIRES_IN), and the
external collaborators as oracle functions (cirrus is excluded from the spec,
so its outputs are unconstrained parameters). -/
structure Env where
  now : Nat
  key_expires_in : Nat
  valid_sa_id : Option String → Nat → String
  provider_create : String → String → ProviderAccount
  provider_get_key : String → GoogleCredentials

/-- The two error kinds of the module: InternalError (fence.errors, a
5xx-style server failure) and flask.abort with an HTTP status (a client-facing
request error). -/
inductive Err where
  | internal (msg : String)
  | abort (status : Nat) (msg : String)
deriving DecidableEq, Repr

/-- Python truthiness of an optional string: None and the empty string are
falsy. -/
def truthyStr : Option String → Bool
  | none => false
  | some s => !(s == "")

/-- Python truthiness of an optional integer: None and 0 are falsy. -/
def truthyNat : Option Nat → Bool
  | none => false
  | some n => !(n == 0)

def noPrimaryMsg (user_id : Nat) : String :=
  "User " ++ toString user_id ++ " does not have a primary service account. " ++
  "Unable to get primary service account key."

def azpAbortMsg : String :=
  "Could not find client id in azp field of token. Cannot create Google key."

def proxyAbortMsg : String :=
  "Could not find Google proxy group for current user in the given token."

/-- get_google_service_account_for_client: pure read of the first
ServiceAccount row matching both client_id and user_id (SQLAlchemy filter_by
with None compiles to IS NULL, i.e. Option equality). -/
def get_google_service_account_for_client (client_id : Option String)
    (user_id : Nat) (db : DB) : Option GoogleServiceAccount :=
  db.service_accounts.find?
    (fun sa => sa.client_id == client_id && sa.user_id == user_id)

/-- _create_google_service_account_for_client: with a truthy proxy group,
compute the provider-valid account id, call the provider, persist the new row;
with a falsy proxy group, flask.abort(404). -/
def _create_google_service_account_for_client (env : Env)
    (client_id : Option String) (user_id : Nat)
    (proxy_group_id : Option String) (st : St) :
    Except (Err × St) (GoogleServiceAccount × St) :=
  if truthyStr proxy_group_id then
    let pg := proxy_group_id.getD ""
    let service_account_id := env.valid_sa_id client_id user_id
    let new_service_account := env.provider_create pg service_account_id
    let service_account : GoogleServiceAccount :=
      { id := st.db.next_id
        google_unique_id := new_service_account.uniqueId
        client_id := client_id
        user_id := user_id
        email := new_service_account.email }
    .ok (service_account,
      { db :=
          { service_accounts := st.db.service_accounts ++ [service_account]
            service_account_keys := st.db.service_account_keys
            next_id := st.db.next_id + 1 }
        calls := st.calls ++ [.createServiceAccount pg service_account_id] })
  else
    .error (.abort 404 proxyAbortMsg, st)

/-- create_google_access_key_for_client: resolve the stored account; if absent
and a client id is given, provision it first; if absent with no client id,
flask.abort(404); finally ask the provider for an access key. -/
def create_google_access_key_for_client (env : Env)
    (client_id : Option String) (user_id : Nat)
    (proxy_group_id : Option String) (st : St) :
    Except (Err × St) ((GoogleCredentials × GoogleServiceAccount) × St) :=
  match get_google_service_account_for_client client_id user_id st.db with
  | some service_account =>
    let key := env.provider_get_key service_account.google_unique_id
    .ok ((key, service_account),
      { st with
        calls := st.calls ++ [.getAccessKey service_account.google_unique_id] })
  | none =>
    if truthyStr client_id then
      match _create_google_service_account_for_client env client_id user_id
          proxy_group_id st with
      | .ok (service_account, st1) =>
        let key := env.provider_get_key service_account.google_unique_id
        .ok ((key, service_account),
          { st1 with
            calls :=
              st1.calls ++ [.getAccessKey service_account.google_unique_id] })
      | .error e => .error e
    else
      .error (.abort 404 azpAbortMsg, st)

/-- The expiration resolution `expires = expires or (int(time.time()) +
config[...])`: a falsy expires (None or 0) is replaced by now + default. -/
def resolve_expires (env : Env) (expires : Option Nat) : Nat :=
  if truthyNat expires then expires.getD 0
  else env.now + env.key_expires_in

/-- _create_users_primary_google_service_account_key: resolve the expiration,
obtain a fresh key from the provider via create_google_access_key_for_client
(client_id None), persist the key row with its private-key payload, return
the credentials. -/
def _create_users_primary_google_service_account_key (env : Env)
    (user_id : Nat) (proxy_group_id : Option String) (expires : Option Nat)
    (st : St) : Except (Err × St) (GoogleCredentials × St) :=
  let expires1 := resolve_expires env expires
  match create_google_access_key_for_client env none user_id proxy_group_id
      st with
  | .error e => .error e
  | .ok ((sa_private_key, service_account), st1) =>
    let sa_key : GoogleServiceAccountKey :=
      { key_id := sa_private_key.private_key_id
        service_account_id := service_account.id
        expires := expires1
        private_key := some sa_private_key }
    .ok (sa_private_key,
      { st1 with
        db :=
          { st1.db with
            service_account_keys :=
              st1.db.service_account_keys ++ [sa_key] } })

/-- The key query of get_or_create: first row whose service_account_id matches
and whose private_key IS NOT NULL. -/
def findUsableKey (db : DB) (service_account_id : Nat) :
    Option GoogleServiceAccountKey :=
  db.service_account_keys.find?
    (fun k => k.service_account_id == service_account_id
      && k.private_key.isSome)

/-- get_or_create_users_primary_google_service_account_key: resolve the
primary account (client_id None), raising InternalError when absent; return
the first persisted key with material if one exists (the local variable
user_service_account_key stays None on the create path, hence the second
component of the result); otherwise mint and persist a new key. -/
def get_or_create_users_primary_google_service_account_key (env : Env)
    (user_id : Nat) (proxy_group_id : Option String) (expires : Option Nat)
    (st : St) :
    Except (Err × St)
      ((GoogleCredentials × Option GoogleServiceAccountKey) × St) :=
  match get_google_service_account_for_client none user_id st.db with
  | none => .error (.internal (noPrimaryMsg user_id), st)
  | some user_google_service_account =>
    match findUsableKey st.db user_google_service_account.id with
    | some user_service_account_key =>
      .ok ((user_service_account_key.private_key.getD default,
            some user_service_account_key), st)
    | none =>
      match _create_users_primary_google_service_account_key env user_id
          proxy_group_id expires st with
      | .error e => .error e
      | .ok (sa_private_key, st1) => .ok ((sa_private_key, none), st1)

/-- add_custom_service_account_key_expiration: insert a key row with the given
id, account and expiration; the constructor omits private_key, so the column
is NULL. -/
def add_custom_service_account_key_expiration (key_id : Option String)
    (service_account_id : Nat) (expires : Nat) (db : DB) : DB :=
  { db with
    service_account_keys := db.service_account_keys ++
      [{ key_id := key_id
         service_account_id := service_account_id
         expires := expires
         private_key := none }] }

/-! ## Concrete fixtures for witnesses and counterexamples -/

/-- A concrete environment: current time 1000, default expiration window 100,
and oracle collaborators with fixed outputs. -/
def cEnv : Env :=
  { now := 1000
    key_expires_in := 100
    valid_sa_id := fun _ _ => "svc-id"
    provider_create := fun _ _ => { uniqueId := "uid-new", email := "new@sa" }
    provider_get_key := fun _ =>
      { private_key_id := some "pkid-1", material := "MATERIAL" } }

/-- The concrete primary service account of user 7 (client_id NULL). -/
def saP : GoogleServiceAccount :=
  { id := 1
    google_unique_id := "uid-P"
    client_id := none
    user_id := 7
    email := "p@sa" }

/-- A concrete persisted key for saP with non-null private-key material. -/
def keyP : GoogleServiceAccountKey :=
  { key_id := some "k1"
    service_account_id := 1
    expires := 500
    private_key := some { private_key_id := some "k1", material := "PKMAT" } }

/-- The credentials the concrete provider mints. -/
def pkC : GoogleCredentials :=
  { private_key_id := some "pkid-1", material := "MATERIAL" }

/-- State in which user 7 has a primary account and a usable key. -/
def stHit : St :=
  { db :=
      { service_accounts := [saP]
        service_account_keys := [keyP]
        next_id := 2 }
    calls := [] }

/-- State in which user 7 has a primary account but no key rows at all. -/
def stMiss : St :=
  { db :=
      { service_accounts := [saP]
        service_account_keys := []
        next_id := 2 }
    calls := [] }

/-- State with no service accounts at all. -/
def stEmpty : St :=
  { db :=
      { service_accounts := []
        service_account_keys := []
        next_id := 1 }
    calls := [] }

/-! ## Evaluation lemmas shared by the claim theorems -/

/-- Cache hit: when the primary account exists and the key query finds a row,
get-or-create returns that row and its material with the state untouched. -/
theorem get_or_create_eval_hit (env : Env) (st : St) (user_id : Nat)
    (proxy_group_id : Option String) (expires : Option Nat)
    (sa : GoogleServiceAccount) (k : GoogleServiceAccountKey)
    (hsa : get_google_service_account_for_client none user_id st.db = some sa)
    (hk : findUsableKey st.db sa.id = some k) :
    get_or_create_users_primary_google_service_account_key env user_id
        proxy_group_id expires st
      = .ok ((k.private_key.getD default, some k), st) := by
  simp only [get_or_create_users_primary_google_service_account_key, hsa, hk]

/-- Cache miss: when the primary account exists and the key query finds
nothing, get-or-create mints a key from the provider, appends exactly one key
row with the resolved expiration, records one provider call, and returns the
material paired with `none`. -/
theorem get_or_create_eval_miss (env : Env) (st : St) (user_id : Nat)
    (proxy_group_id : Option String) (expires : Option Nat)
    (sa : GoogleServiceAccount)
    (hsa : get_google_service_account_for_client none user_id st.db = some sa)
    (hk : findUsableKey st.db sa.id = none) :
    get_or_create_users_primary_google_service_account_key env user_id
        proxy_group_id expires st
      = .ok ((env.provider_get_key sa.google_unique_id, none),
          { db :=
              { st.db with
                service_account_keys := st.db.service_account_keys ++
                  [{ key_id :=
                       (env.provider_get_key sa.google_unique_id).private_key_id
                     service_account_id := sa.id
                     expires := resolve_expires env expires
                     private_key :=
                       some (env.provider_get_key sa.google_unique_id) }] }
            calls := st.calls ++ [.getAccessKey sa.google_unique_id] }) := by
  simp only [get_or_create_users_primary_google_service_account_key,
    _create_users_primary_google_service_account_key,
    create_google_access_key_for_client, hsa, hk]

/-- The key query finds a row exactly when it matches the account and has
material; a found row always has some material. -/
theorem findUsableKey_some_material (db : DB) (i : Nat)
    (k : GoogleServiceAccountKey) (h : findUsableKey db i = some k) :
    ∃ pk, k.private_key = some pk ∧ k.service_account_id = i := by
  have hp := List.find?_some h
  simp only [Bool.and_eq_true, beq_iff_eq, Option.isSome_iff_exists] at hp
  obtain ⟨h1, pk, h2⟩ := hp
  exact ⟨pk, h2, h1⟩

/-! ## Claim theorems -/

/-- C1: for a user whose primary service account has a persisted key with
non-null private-key material, get_or_create returns that existing material
verbatim, the returned state is the input state (no insert, no provider call),
and two calls with arbitrary and different requested expirations return the
identical result, so no second key row is ever created. -/
theorem get_or_create_cache_hit_returns_existing (env : Env) (st : St)
    (user_id : Nat) (proxy_group_id : Option String) (e1 e2 : Option Nat)
    (sa : GoogleServiceAccount) (k : GoogleServiceAccountKey)
    (hsa : get_google_service_account_for_client none user_id st.db = some sa)
    (hk : findUsableKey st.db sa.id = some k) :
    ∃ pk, k.private_key = some pk ∧
      get_or_create_users_primary_google_service_account_key env user_id
        proxy_group_id e1 st = .ok ((pk, some k), st) ∧
      get_or_create_users_primary_google_service_account_key env user_id
        proxy_group_id e2 st = .ok ((pk, some k), st) := by
  obtain ⟨pk, hpk, _⟩ := findUsableKey_some_material st.db sa.id k hk
  have h1 := get_or_create_eval_hit env st user_id proxy_group_id e1 sa k hsa hk
  have h2 := get_or_create_eval_hit env st user_id proxy_group_id e2 sa k hsa hk
  rw [hpk] at h1 h2
  simp only [Option.getD_some] at h1 h2
  exact ⟨pk, hpk, h1, h2⟩

/-- Witness for C1 at user 7 in stHit with two different requested
expirations. -/
theorem get_or_create_cache_hit_returns_existing_witness :
    ∃ pk, keyP.private_key = some pk ∧
      get_or_create_users_primary_google_service_account_key cEnv 7
        (some "pg") (some 11) stHit = .ok ((pk, some keyP), stHit) ∧
      get_or_create_users_primary_google_service_account_key cEnv 7
        (some "pg") (some 22) stHit = .ok ((pk, some keyP), stHit) :=
  get_or_create_cache_hit_returns_existing cEnv stHit 7 (some "pg")
    (some 11) (some 22) saP keyP rfl rfl

/-- C3: for a user with no primary service account (no row with NULL client
id), get_or_create raises InternalError, and the state paired with the error
is the input state: nothing was persisted and no provider call was made. -/
theorem get_or_create_no_primary_account_internal_error (env : Env) (st : St)
    (user_id : Nat) (proxy_group_id : Option String) (expires : Option Nat)
    (h : get_google_service_account_for_client none user_id st.db = none) :
    get_or_create_users_primary_google_service_account_key env user_id
        proxy_group_id expires st
      = .error (.internal (noPrimaryMsg user_id), st) := by
  simp only [get_or_create_users_primary_google_service_account_key, h]

/-- Witness for C3 at user 7 in the empty state. -/
theorem get_or_create_no_primary_account_internal_error_witness :
    get_or_create_users_primary_google_service_account_key cEnv 7
        (some "pg") none stEmpty
      = .error (.internal (noPrimaryMsg 7), stEmpty) :=
  get_or_create_no_primary_account_internal_error cEnv stEmpty 7 (some "pg")
    none rfl

/-- C4: the provisioner with a falsy isolation-group identifier (None or the
empty string) aborts with the client-facing 404 request error, and the state
paired with the error is the input state: no provider call was made and no
ServiceAccount row was inserted. -/
theorem create_service_account_missing_proxy_group_404 (env : Env)
    (client_id : Option String) (user_id : Nat)
    (proxy_group_id : Option String) (st : St)
    (h : truthyStr proxy_group_id = false) :
    _create_google_service_account_for_client env client_id user_id
        proxy_group_id st
      = .error (.abort 404 proxyAbortMsg, st) := by
  simp [_create_google_service_account_for_client, h]

/-- Witness for C4 with a missing proxy group in the empty state. -/
theorem create_service_account_missing_proxy_group_404_witness :
    _create_google_service_account_for_client cEnv (some "client-a") 7 none
        stEmpty
      = .error (.abort 404 proxyAbortMsg, stEmpty) :=
  create_service_account_missing_proxy_group_404 cEnv (some "client-a") 7
    none stEmpty rfl

/-- C5: when no service account is stored for the (client, user) pair, the
key issuer aborts with the 404 request error and an unchanged state if the
client identifier is falsy; with a truthy client identifier it provisions the
account first and then issues the key for the freshly provisioned account. -/
theorem create_access_key_no_stored_account (env : Env)
    (client_id : Option String) (user_id : Nat)
    (proxy_group_id : Option String) (st : St)
    (h : get_google_service_account_for_client client_id user_id st.db
      = none) :
    (truthyStr client_id = false →
      create_google_access_key_for_client env client_id user_id
          proxy_group_id st
        = .error (.abort 404 azpAbortMsg, st)) ∧
    (∀ sa st1, truthyStr client_id = true →
      _create_google_service_account_for_client env client_id user_id
          proxy_group_id st = .ok (sa, st1) →
      create_google_access_key_for_client env client_id user_id
          proxy_group_id st
        = .ok ((env.provider_get_key sa.google_unique_id, sa),
            { st1 with
              calls := st1.calls ++ [.getAccessKey sa.google_unique_id] })) := by
  constructor
  · intro hc
    simp [create_google_access_key_for_client, h, hc]
  · intro sa st1 hc hcr
    simp [create_google_access_key_for_client, h, hc, hcr]

/-- Witness for C5 with client "client-a", user 9, proxy group "pg", in the
empty state: the falsy branch holds vacuously and the truthy branch is
exercised on the concrete provisioning result. -/
theorem create_access_key_no_stored_account_witness :
    (truthyStr (some "client-a") = false →
      create_google_access_key_for_client cEnv (some "client-a") 9
          (some "pg") stEmpty
        = .error (.abort 404 azpAbortMsg, stEmpty)) ∧
    (∀ sa st1, truthyStr (some "client-a") = true →
      _create_google_service_account_for_client cEnv (some "client-a") 9
          (some "pg") stEmpty = .ok (sa, st1) →
      create_google_access_key_for_client cEnv (some "client-a") 9
          (some "pg") stEmpty
        = .ok ((cEnv.provider_get_key sa.google_unique_id, sa),
            { st1 with
              calls := st1.calls ++ [.getAccessKey sa.google_unique_id] })) :=
  create_access_key_no_stored_account cEnv (some "client-a") 9 (some "pg")
    stEmpty rfl

/-- C6: the service-account resolver is a pure read (its type takes and
returns no state and no error): a returned row is a stored row matching both
the client identifier and the user identifier, absence is returned exactly
when no stored row matches, and the row resolved for (None, user) is distinct
from any row resolved for (Some client, user). -/
theorem get_service_account_pure_lookup (client_id : Option String)
    (user_id : Nat) (db : DB) :
    (∀ sa, get_google_service_account_for_client client_id user_id db
        = some sa →
      sa ∈ db.service_accounts ∧ sa.client_id = client_id
        ∧ sa.user_id = user_id) ∧
    (get_google_service_account_for_client client_id user_id db = none ↔
      ∀ sa ∈ db.service_accounts,
        ¬(sa.client_id = client_id ∧ sa.user_id = user_id)) ∧
    (∀ c sa sa1,
      get_google_service_account_for_client none user_id db = some sa →
      get_google_service_account_for_client (some c) user_id db = some sa1 →
      sa ≠ sa1) := by
  refine ⟨?_, ?_, ?_⟩
  · intro sa hfind
    have hmem := List.mem_of_find?_eq_some hfind
    have hp := List.find?_some hfind
    simp only [Bool.and_eq_true, beq_iff_eq] at hp
    exact ⟨hmem, hp.1, hp.2⟩
  · unfold get_google_service_account_for_client
    rw [List.find?_eq_none]
    simp
  · intro c sa sa1 h0 h1 heq
    have hp0 := List.find?_some h0
    have hp1 := List.find?_some h1
    simp only [Bool.and_eq_true, beq_iff_eq] at hp0 hp1
    rw [heq] at hp0
    rw [hp0.1] at hp1
    exact Option.noConfusion hp1.1

/-- Witness for C6: in stHit, resolving (None, 7) yields the stored primary
row saP, with its membership and field equalities extracted through the
theorem. -/
theorem get_service_account_pure_lookup_witness :
    saP ∈ stHit.db.service_accounts ∧ saP.client_id = none
      ∧ saP.user_id = 7 :=
  (get_service_account_pure_lookup none 7 stHit.db).1 saP rfl

/-- C7: the provisioner with a present isolation-group identifier computes
the provider-valid account name from the (client, user) pair, performs
exactly one provider creation call inside that group, and persists exactly
one new ServiceAccount row carrying the provider-returned unique identifier
and email, bound to the client and user identifiers, in the returned
(committed) state. -/
theorem create_service_account_provisions_and_persists (env : Env)
    (client_id : Option String) (user_id : Nat) (pg : String) (st : St)
    (h : pg ≠ "") :
    ∃ sa st1,
      _create_google_service_account_for_client env client_id user_id
          (some pg) st = .ok (sa, st1) ∧
      sa.google_unique_id
        = (env.provider_create pg
            (env.valid_sa_id client_id user_id)).uniqueId ∧
      sa.email
        = (env.provider_create pg (env.valid_sa_id client_id user_id)).email ∧
      sa.client_id = client_id ∧
      sa.user_id = user_id ∧
      st1.db.service_accounts = st.db.service_accounts ++ [sa] ∧
      st1.db.service_account_keys = st.db.service_account_keys ∧
      st1.calls = st.calls
        ++ [.createServiceAccount pg (env.valid_sa_id client_id user_id)] := by
  have ht : truthyStr (some pg) = true := by
    simp [truthyStr, h]
  have heval :
      _create_google_service_account_for_client env client_id user_id
          (some pg) st
        = .ok
            ({ id := st.db.next_id
               google_unique_id :=
                 (env.provider_create pg
                   (env.valid_sa_id client_id user_id)).uniqueId
               client_id := client_id
               user_id := user_id
               email :=
                 (env.provider_create pg
                   (env.valid_sa_id client_id user_id)).email },
             { db :=
                 { service_accounts := st.db.service_accounts ++
                     [{ id := st.db.next_id
                        google_unique_id :=
                          (env.provider_create pg
                            (env.valid_sa_id client_id user_id)).uniqueId
                        client_id := client_id
                        user_id := user_id
                        email :=
                          (env.provider_create pg
                            (env.valid_sa_id client_id user_id)).email }]
                   service_account_keys := st.db.service_account_keys
                   next_id := st.db.next_id + 1 }
               calls := st.calls
                 ++ [.createServiceAccount pg
                       (env.valid_sa_id client_id user_id)] }) := by
    simp [_create_google_service_account_for_client, ht]
  exact ⟨_, _, heval, rfl, rfl, rfl, rfl, rfl, rfl, rfl⟩

/-- Witness for C7: provisioning client "client-a" for user 9 in group "pg"
from the empty state. -/
theorem create_service_account_provisions_and_persists_witness :
    ∃ sa st1,
      _create_google_service_account_for_client cEnv (some "client-a") 9
          (some "pg") stEmpty = .ok (sa, st1) ∧
      sa.google_unique_id
        = (cEnv.provider_create "pg"
            (cEnv.valid_sa_id (some "client-a") 9)).uniqueId ∧
      sa.email
        = (cEnv.provider_create "pg"
            (cEnv.valid_sa_id (some "client-a") 9)).email ∧
      sa.client_id = some "client-a" ∧
      sa.user_id = 9 ∧
      st1.db.service_accounts = stEmpty.db.service_accounts ++ [sa] ∧
      st1.db.service_account_keys = stEmpty.db.service_account_keys ∧
      st1.calls = stEmpty.calls
        ++ [.createServiceAccount "pg"
              (cEnv.valid_sa_id (some "client-a") 9)] :=
  create_service_account_provisions_and_persists cEnv (some "client-a") 9
    "pg" stEmpty (by decide)

/-- Evaluation of the key creator when the primary account exists: one
provider key call, one appended key row with the resolved expiration. -/
theorem create_primary_key_eval (env : Env) (st : St) (user_id : Nat)
    (proxy_group_id : Option String) (expires : Option Nat)
    (sa : GoogleServiceAccount)
    (hsa : get_google_service_account_for_client none user_id st.db
      = some sa) :
    _create_users_primary_google_service_account_key env user_id
        proxy_group_id expires st
      = .ok (env.provider_get_key sa.google_unique_id,
          { db :=
              { st.db with
                service_account_keys := st.db.service_account_keys ++
                  [{ key_id :=
                       (env.provider_get_key sa.google_unique_id).private_key_id
                     service_account_id := sa.id
                     expires := resolve_expires env expires
                     private_key :=
                       some (env.provider_get_key sa.google_unique_id) }] }
            calls := st.calls ++ [.getAccessKey sa.google_unique_id] }) := by
  simp only [_create_users_primary_google_service_account_key,
    create_google_access_key_for_client, hsa]

/-- Counterexample for C2 as stated: in stMiss the caller explicitly supplies
expiration 0, yet the single persisted key row carries expiration
now + default = 1100, not the supplied 0. -/
theorem get_or_create_explicit_zero_expires_counterexample :
    get_or_create_users_primary_google_service_account_key cEnv 7 (some "pg")
        (some 0) stMiss
      = .ok ((pkC, none),
          { db :=
              { service_accounts := [saP]
                service_account_keys :=
                  [{ key_id := some "pkid-1"
                     service_account_id := 1
                     expires := 1100
                     private_key := some pkC }]
                next_id := 2 }
            calls := [.getAccessKey "uid-P"] })
      ∧ (1100 : Nat) ≠ 0 :=
  ⟨rfl, by decide⟩

/-- C2 (amended): for a user whose primary account exists but has no key row
with material, get_or_create appends exactly one new key row holding the
minted material, records one provider call, and the persisted expiration is
the explicit expires argument when that argument is given and nonzero,
and current time plus the configured default when it is absent or 0. -/
theorem get_or_create_cache_miss_creates_one_key (env : Env) (st : St)
    (user_id : Nat) (proxy_group_id : Option String) (expires : Option Nat)
    (sa : GoogleServiceAccount)
    (hsa : get_google_service_account_for_client none user_id st.db = some sa)
    (hk : findUsableKey st.db sa.id = none) :
    ∃ row,
      get_or_create_users_primary_google_service_account_key env user_id
          proxy_group_id expires st
        = .ok ((env.provider_get_key sa.google_unique_id, none),
            { db :=
                { st.db with
                  service_account_keys :=
                    st.db.service_account_keys ++ [row] }
              calls := st.calls ++ [.getAccessKey sa.google_unique_id] }) ∧
      row.private_key = some (env.provider_get_key sa.google_unique_id) ∧
      row.service_account_id = sa.id ∧
      (∀ v, expires = some v → v ≠ 0 → row.expires = v) ∧
      ((expires = none ∨ expires = some 0) →
        row.expires = env.now + env.key_expires_in) := by
  refine ⟨_,
    get_or_create_eval_miss env st user_id proxy_group_id expires sa hsa hk,
    rfl, rfl, ?_, ?_⟩
  · intro v hv hv0
    subst hv
    simp [resolve_expires, truthyNat, hv0]
  · rintro (hv | hv) <;> subst hv <;> simp [resolve_expires, truthyNat]

/-- Witness for the amended C2: user 7 in stMiss with explicit expiration
77. -/
theorem get_or_create_cache_miss_creates_one_key_witness :
    ∃ row,
      get_or_create_users_primary_google_service_account_key cEnv 7
          (some "pg") (some 77) stMiss
        = .ok ((cEnv.provider_get_key saP.google_unique_id, none),
            { db :=
                { stMiss.db with
                  service_account_keys :=
                    stMiss.db.service_account_keys ++ [row] }
              calls := stMiss.calls
                ++ [.getAccessKey saP.google_unique_id] }) ∧
      row.private_key = some (cEnv.provider_get_key saP.google_unique_id) ∧
      row.service_account_id = saP.id ∧
      (∀ v, (some 77 : Option Nat) = some v → v ≠ 0 → row.expires = v) ∧
      (((some 77 : Option Nat) = none ∨ (some 77 : Option Nat) = some 0) →
        row.expires = cEnv.now + cEnv.key_expires_in) :=
  get_or_create_cache_miss_creates_one_key cEnv stMiss 7 (some "pg")
    (some 77) saP rfl rfl

/-- C8: get_or_create returns a pair whose second component is the existing
persisted row on a cache hit, but None on a cache miss even though the miss
appends a fresh key row to the store: the freshly created row is never
returned. -/
theorem get_or_create_second_component (env : Env) (st : St) (user_id : Nat)
    (proxy_group_id : Option String) (expires : Option Nat)
    (sa : GoogleServiceAccount)
    (hsa : get_google_service_account_for_client none user_id st.db
      = some sa) :
    (∀ k, findUsableKey st.db sa.id = some k →
      ∃ pk, get_or_create_users_primary_google_service_account_key env
          user_id proxy_group_id expires st = .ok ((pk, some k), st)) ∧
    (findUsableKey st.db sa.id = none →
      ∃ pk st1,
        get_or_create_users_primary_google_service_account_key env user_id
          proxy_group_id expires st = .ok ((pk, none), st1) ∧
        st1.db.service_account_keys.length
          = st.db.service_account_keys.length + 1) := by
  constructor
  · intro k hk
    obtain ⟨pk, hpk, _⟩ := findUsableKey_some_material st.db sa.id k hk
    have h1 :=
      get_or_create_eval_hit env st user_id proxy_group_id expires sa k hsa hk
    rw [hpk] at h1
    simp only [Option.getD_some] at h1
    exact ⟨pk, h1⟩
  · intro hk
    refine ⟨_, _,
      get_or_create_eval_miss env st user_id proxy_group_id expires sa hsa hk,
      ?_⟩
    simp

/-- Witness for C8: the hit half at stHit. -/
theorem get_or_create_second_component_witness :
    ∃ pk, get_or_create_users_primary_google_service_account_key cEnv 7
        (some "pg") none stHit = .ok ((pk, some keyP), stHit) :=
  (get_or_create_second_component cEnv stHit 7 (some "pg") none saP rfl).1
    keyP rfl

/-- C9: when the key creator runs with a falsy expires argument (None or 0),
the single persisted key row carries expiration current time plus the
configured default, never 0. -/
theorem create_primary_key_falsy_expires_default (env : Env) (st : St)
    (user_id : Nat) (proxy_group_id : Option String) (expires : Option Nat)
    (sa : GoogleServiceAccount)
    (hsa : get_google_service_account_for_client none user_id st.db = some sa)
    (he : truthyNat expires = false) :
    ∃ pk row st1,
      _create_users_primary_google_service_account_key env user_id
        proxy_group_id expires st = .ok (pk, st1) ∧
      st1.db.service_account_keys = st.db.service_account_keys ++ [row] ∧
      row.expires = env.now + env.key_expires_in := by
  refine ⟨_, _, _,
    create_primary_key_eval env st user_id proxy_group_id expires sa hsa,
    rfl, ?_⟩
  simp [resolve_expires, he]

/-- Witness for C9: explicit expires 0 at stMiss persists expiration 1100 =
1000 + 100. -/
theorem create_primary_key_falsy_expires_default_witness :
    ∃ pk row st1,
      _create_users_primary_google_service_account_key cEnv 7 (some "pg")
        (some 0) stMiss = .ok (pk, st1) ∧
      st1.db.service_account_keys
        = stMiss.db.service_account_keys ++ [row] ∧
      row.expires = cEnv.now + cEnv.key_expires_in :=
  create_primary_key_falsy_expires_default cEnv stMiss 7 (some "pg") (some 0)
    saP rfl rfl

/-- C10: every row inserted by add_custom_service_account_key_expiration has
NULL private-key material; the key query of get_or_create is unchanged by the
insertion (such rows are never cache hits); and for a user whose primary
account had no usable key, get_or_create run after the insertion still mints
and persists a new key. -/
theorem add_custom_key_never_usable (env : Env) (key_id : Option String)
    (said : Nat) (xp : Nat) (st : St) (user_id : Nat)
    (proxy_group_id : Option String) (expires : Option Nat) :
    ∃ row,
      (add_custom_service_account_key_expiration key_id said xp
          st.db).service_account_keys
        = st.db.service_account_keys ++ [row] ∧
      row.private_key = none ∧
      (∀ i, findUsableKey
          (add_custom_service_account_key_expiration key_id said xp st.db) i
        = findUsableKey st.db i) ∧
      (∀ sa,
        get_google_service_account_for_client none user_id st.db = some sa →
        findUsableKey st.db sa.id = none →
        ∃ pk st1,
          get_or_create_users_primary_google_service_account_key env user_id
              proxy_group_id expires
              { db := add_custom_service_account_key_expiration key_id said
                  xp st.db
                calls := st.calls }
            = .ok ((pk, none), st1) ∧
          st1.db.service_account_keys.length
            = st.db.service_account_keys.length + 2) := by
  have hinv : ∀ i, findUsableKey
      (add_custom_service_account_key_expiration key_id said xp st.db) i
      = findUsableKey st.db i := by
    intro i
    simp [findUsableKey, add_custom_service_account_key_expiration,
      List.find?_append]
  refine ⟨_, rfl, rfl, hinv, ?_⟩
  intro sa hsa hk
  have hsa1 : get_google_service_account_for_client none user_id
      (add_custom_service_account_key_expiration key_id said xp st.db)
      = some sa := hsa
  have hk1 : findUsableKey
      (add_custom_service_account_key_expiration key_id said xp st.db) sa.id
      = none := (hinv sa.id).trans hk
  refine ⟨_, _,
    get_or_create_eval_miss env
      { db := add_custom_service_account_key_expiration key_id said xp st.db
        calls := st.calls }
      user_id proxy_group_id expires sa hsa1 hk1, ?_⟩
  simp [add_custom_service_account_key_expiration]

/-- Witness for C10: inserting a custom-expiration row for account 1 into
stMiss, then running get_or_create for user 7, exercised through the final
conjunct. -/
theorem add_custom_key_never_usable_witness :
    ∃ row,
      (add_custom_service_account_key_expiration (some "ck") 1 900
          stMiss.db).service_account_keys
        = stMiss.db.service_account_keys ++ [row] ∧
      row.private_key = none ∧
      (∀ i, findUsableKey
          (add_custom_service_account_key_expiration (some "ck") 1 900
            stMiss.db) i
        = findUsableKey stMiss.db i) ∧
      (∀ sa,
        get_google_service_account_for_client none 7 stMiss.db = some sa →
        findUsableKey stMiss.db sa.id = none →
        ∃ pk st1,
          get_or_create_users_primary_google_service_account_key cEnv 7
              (some "pg") none
              { db := add_custom_service_account_key_expiration (some "ck")
                  1 900 stMiss.db
                calls := stMiss.calls }
            = .ok ((pk, none), st1) ∧
          st1.db.service_account_keys.length
            = stMiss.db.service_account_keys.length + 2) :=
  add_custom_key_never_usable cEnv (some "ck") 1 900 stMiss 7 (some "pg") none

end FenceGoogleUtils
